import Mathlib

/-!
Verification of the study-scheduler core: the study-session timer state
machine (`StudyTimer` in NotificationManager.tsx), the goals/streak
calculator (`GoalsAndStreaks`), the calendar export (`calendarExport.ts`)
and the study-plan generator (the serverless `generateCSStudyPlan`).

All machine numbers in the source are JavaScript numbers holding small
integers; they are modelled as `Nat`/`Int`.  Timestamps are modelled as
integer milliseconds since the epoch, with local time equal to UTC (the
source's use of local-midnight truncation and `getDay` is modelled on a
DST-free calendar: one civil day is exactly 86400000 ms).
-/

/-- `difficulty: 'easy' | 'medium' | 'hard'` from the `StudySession` interface. -/
inductive Difficulty
  | easy
  | medium
  | hard
deriving DecidableEq, Repr

/-- The `StudySession` record (calendarExport.ts version, which also has the
optional `description` and `goals` fields).  `startTime` is the epoch-ms
timestamp denoted by the `startTime` string (the `new Date(s.startTime)`
parsing step is abstracted); text fields are lists of characters. -/
structure StudySession where
  id : List Char
  subject : List Char
  topic : List Char
  duration : Nat
  startTime : Int
  completed : Bool
  difficulty : Difficulty
  description : Option (List Char) := none
  goals : List (List Char) := []
deriving DecidableEq, Repr

/-- The `Goals` record of GoalsAndStreaks. -/
structure Goals where
  dailyMinutes : Nat
  weeklyMinutes : Nat
  weeklySessions : Nat
deriving DecidableEq, Repr

/-! ## Timer state machine (`StudyTimer`) -/

/-- `type TimerMode = 'study' | 'break'`. -/
inductive TimerMode
  | study
  | tbreak
deriving DecidableEq, Repr

/-- `type TimerState = 'idle' | 'running' | 'paused' | 'completed'`. -/
inductive TState
  | idle
  | running
  | paused
  | completed
deriving DecidableEq, Repr

/-- `type TimerType = 'custom' | 'pomodoro'`. -/
inductive TimerType
  | custom
  | pomodoro
deriving DecidableEq, Repr

/-- The React state of the `StudyTimer` component: `timerType`, `mode`,
`state`, `timeLeft`, `totalTime`, `pomodoroCount` (all in seconds /
counts, as in the source). -/
structure Timer where
  timerType : TimerType
  mode : TimerMode
  state : TState
  timeLeft : Nat
  totalTime : Nat
  pomodoroCount : Nat
deriving DecidableEq, Repr

/-- `const pomodoroStudyDuration = 25 * 60`. -/
def pomodoroStudyDuration : Nat := 25 * 60

/-- `const breakDuration = pomodoroCount > 0 && (pomodoroCount + 1) % 4 === 0
? 15 * 60 : 5 * 60` — computed from the render's `pomodoroCount`, i.e.
the value before `startBreak`'s increment is applied. -/
def breakDuration (pomodoroCount : Nat) : Nat :=
  if 0 < pomodoroCount ∧ (pomodoroCount + 1) % 4 = 0 then 15 * 60 else 5 * 60

/-- The full study duration for the current timer type:
`timerType === 'pomodoro' ? pomodoroStudyDuration : session.duration * 60`
(`d` is `session.duration` in minutes). -/
def studyTime (d : Nat) (t : TimerType) : Nat :=
  match t with
  | .pomodoro => pomodoroStudyDuration
  | .custom => d * 60

/-- The initial component state for a session of duration `d` minutes:
`timerType = 'custom'`, `mode = 'study'`, `state = 'idle'`,
`timeLeft = totalTime = session.duration * 60`, `pomodoroCount = 0`. -/
def initTimer (d : Nat) : Timer :=
  { timerType := .custom, mode := .study, state := .idle
    timeLeft := d * 60, totalTime := d * 60, pomodoroCount := 0 }

/-- One 1-second tick.  The interval only exists while
`state === 'running' && timeLeft > 0`; inside it, `prev <= 1` finishes the
timer: in study mode `state` becomes `'completed'` with `timeLeft = 0`; in
break mode the component switches back to an idle study timer (the nested
`setTimeLeft(studyTime)` issued inside the updater supersedes the updater's
own `return 0`, so the settled `timeLeft` is the study duration). -/
def tick (d : Nat) (s : Timer) : Timer :=
  if s.state = .running ∧ 0 < s.timeLeft then
    if s.timeLeft ≤ 1 then
      match s.mode with
      | .study => { s with state := .completed, timeLeft := 0 }
      | .tbreak =>
          let st := studyTime d s.timerType
          { s with mode := .study, state := .idle, timeLeft := st, totalTime := st }
    else { s with timeLeft := s.timeLeft - 1 }
  else s

/-- `handleStart` (the Start/Resume button). -/
def handleStart (s : Timer) : Timer := { s with state := .running }

/-- `handlePause`. -/
def handlePause (s : Timer) : Timer := { s with state := .paused }

/-- `handleReset`: back to idle with the full duration for the current
mode (study duration for the current timer type, or the break duration for
the current `pomodoroCount`). -/
def handleReset (d : Nat) (s : Timer) : Timer :=
  match s.mode with
  | .study =>
      let st := studyTime d s.timerType
      { s with state := .idle, timeLeft := st, totalTime := st }
  | .tbreak =>
      let bd := breakDuration s.pomodoroCount
      { s with state := .idle, timeLeft := bd, totalTime := bd }

/-- `handleStop`: idle study timer at the full study duration. -/
def handleStop (d : Nat) (s : Timer) : Timer :=
  let st := studyTime d s.timerType
  { s with state := .idle, mode := .study, timeLeft := st, totalTime := st }

/-- `handleTimerTypeChange`: ignored unless `state === 'idle'`; otherwise
switches the type, resets `pomodoroCount` to 0 and reloads
`timeLeft`/`totalTime` with the new type's study duration. -/
def handleTimerTypeChange (d : Nat) (t : TimerType) (s : Timer) : Timer :=
  if s.state ≠ .idle then s
  else
    let st := studyTime d t
    { s with timerType := t, pomodoroCount := 0, timeLeft := st, totalTime := st }

/-- `startBreak`: increments `pomodoroCount`, switches to a running break
whose length is the render's `breakDuration`, i.e. the one computed from
the pre-increment `pomodoroCount` (React state updates are applied after
the handler closes over the old value). -/
def startBreak (s : Timer) : Timer :=
  let bd := breakDuration s.pomodoroCount
  { s with pomodoroCount := s.pomodoroCount + 1, mode := .tbreak
           timeLeft := bd, totalTime := bd, state := .running }

/-- `skipBreak`: back to an idle study timer at the full study duration. -/
def skipBreak (d : Nat) (s : Timer) : Timer :=
  let st := studyTime d s.timerType
  { s with mode := .study, timeLeft := st, totalTime := st, state := .idle }

/-- The user/tick events of the timer component. -/
inductive TimerAction
  | tick
  | start
  | pause
  | reset
  | stop
  | selectType (t : TimerType)
  | startBreak
  | skipBreak
  | markComplete
deriving DecidableEq, Repr

/-- One step of the component: the next state together with whether the
host's `onComplete(session.id)` callback fires during the step.
`handleComplete` is reachable only through the Mark Complete button, which
is rendered only under `state === 'completed' && mode === 'study'`; it is
the only code path that invokes `onComplete`. -/
def timerStep (d : Nat) (a : TimerAction) (s : Timer) : Timer × Bool :=
  match a with
  | .tick => (tick d s, false)
  | .start => (handleStart s, false)
  | .pause => (handlePause s, false)
  | .reset => (handleReset d s, false)
  | .stop => (handleStop d s, false)
  | .selectType t => (handleTimerTypeChange d t s, false)
  | .startBreak => (startBreak s, false)
  | .skipBreak => (skipBreak d s, false)
  | .markComplete =>
      if s.state = .completed ∧ s.mode = .study then (s, true) else (s, false)

/-- `breakDuration`'s `pomodoroCount > 0` conjunct is redundant over the
naturals: `(0 + 1) % 4 ≠ 0`, so the modulo test alone decides the length. -/
theorem breakDuration_eq (c : Nat) :
    breakDuration c = if (c + 1) % 4 = 0 then 15 * 60 else 5 * 60 := by
  unfold breakDuration
  by_cases h : (c + 1) % 4 = 0
  · have h4 : 4 ∣ c + 1 := Nat.dvd_of_mod_eq_zero h
    have h4' : 4 ≤ c + 1 := Nat.le_of_dvd (Nat.succ_pos c) h4
    have hc : 0 < c := by omega
    simp [h, hc]
  · simp [h]

/-- Running the timer for `n` ticks in study mode from `timeLeft = n ≥ 1`
finishes it: `state` becomes `completed` and `timeLeft` becomes `0`. -/
theorem tick_drains (d : Nat) :
    ∀ (n : Nat) (s : Timer), 1 ≤ n → s.state = .running → s.mode = .study →
      s.timeLeft = n →
      (tick d)^[n] s = { s with state := .completed, timeLeft := 0 } := by
  intro n
  induction n with
  | zero => intro s h; exact absurd h (by omega)
  | succ n ih =>
    intro s _ hs hm ht
    rcases Nat.eq_zero_or_pos n with h0 | hpos
    · subst h0
      rw [Function.iterate_one]
      unfold tick
      rw [if_pos ⟨hs, by omega⟩, if_pos (by omega), hm]
    · rw [Function.iterate_succ_apply]
      have h1 : tick d s = { s with timeLeft := n } := by
        unfold tick
        rw [if_pos ⟨hs, by omega⟩, if_neg (by omega)]
        simp [ht]
      rw [h1]
      exact ih { s with timeLeft := n } hpos hs hm rfl

/-- The state invariant of claim C7: `0 ≤ timeLeft ≤ totalTime` (the lower
bound is inherent to the `Nat` model). -/
def TimerInv (s : Timer) : Prop := s.timeLeft ≤ s.totalTime

instance (s : Timer) : Decidable (TimerInv s) := by unfold TimerInv; infer_instance

/-- C4: starting a break from a completed study cycle increments
`pomodoroCount` by exactly 1, sets mode to break and state to running, and
the break about to start lasts 900 s exactly when `(pomodoroCount + 1) % 4 = 0`
holds for the pre-increment count (the 4th, 8th, … break); every other
break lasts 300 s. -/
theorem C4_startBreak_duration (s : Timer)
    (_hst : s.state = .completed) (_hm : s.mode = .study) :
    (startBreak s).pomodoroCount = s.pomodoroCount + 1 ∧
    (startBreak s).mode = .tbreak ∧
    (startBreak s).state = .running ∧
    (startBreak s).timeLeft = (startBreak s).totalTime ∧
    ((startBreak s).totalTime = 900 ↔ (s.pomodoroCount + 1) % 4 = 0) ∧
    ((s.pomodoroCount + 1) % 4 ≠ 0 → (startBreak s).totalTime = 300) := by
  refine ⟨rfl, rfl, rfl, rfl, ?_, ?_⟩ <;>
    simp only [startBreak, breakDuration_eq s.pomodoroCount]
  · by_cases h : (s.pomodoroCount + 1) % 4 = 0 <;> simp [h]
  · intro h
    simp [h]

theorem C4_startBreak_duration_witness :
    (startBreak ⟨.pomodoro, .study, .completed, 0, 1500, 3⟩).pomodoroCount = 3 + 1 ∧
    (startBreak ⟨.pomodoro, .study, .completed, 0, 1500, 3⟩).mode = .tbreak ∧
    (startBreak ⟨.pomodoro, .study, .completed, 0, 1500, 3⟩).state = .running ∧
    (startBreak ⟨.pomodoro, .study, .completed, 0, 1500, 3⟩).timeLeft =
      (startBreak ⟨.pomodoro, .study, .completed, 0, 1500, 3⟩).totalTime ∧
    ((startBreak ⟨.pomodoro, .study, .completed, 0, 1500, 3⟩).totalTime = 900 ↔
      (3 + 1) % 4 = 0) ∧
    ((3 + 1) % 4 ≠ 0 →
      (startBreak ⟨.pomodoro, .study, .completed, 0, 1500, 3⟩).totalTime = 300) :=
  C4_startBreak_duration ⟨.pomodoro, .study, .completed, 0, 1500, 3⟩ rfl rfl

/-- C6: for a custom timer on a session of `d ≥ 1` minutes, starting from the
initial state (`timeLeft = totalTime = d*60`, mode study) and delivering
`d*60` ticks drives the state to `completed` with `timeLeft = 0`. -/
theorem C6_custom_timer_completes (d : Nat) (hd : 1 ≤ d) :
    ((tick d)^[d * 60] (handleStart (initTimer d))).state = .completed ∧
    ((tick d)^[d * 60] (handleStart (initTimer d))).timeLeft = 0 := by
  have h60 : 1 * 60 ≤ d * 60 := Nat.mul_le_mul_right 60 hd
  have h := tick_drains d (d * 60) (handleStart (initTimer d))
    (by omega) rfl rfl rfl
  rw [h]
  exact ⟨rfl, rfl⟩

theorem C6_custom_timer_completes_witness :
    ((tick 1)^[1 * 60] (handleStart (initTimer 1))).state = .completed ∧
    ((tick 1)^[1 * 60] (handleStart (initTimer 1))).timeLeft = 0 :=
  C6_custom_timer_completes 1 (by decide)

/-- C7: every timer operation preserves `0 ≤ timeLeft ≤ totalTime`, and a
reset event leaves `timeLeft = totalTime` for the current mode. -/
theorem C7_step_preserves_invariant (d : Nat) (a : TimerAction) (s : Timer)
    (h : TimerInv s) :
    0 ≤ (timerStep d a s).1.timeLeft ∧ TimerInv (timerStep d a s).1 ∧
    (a = .reset → (timerStep d a s).1.timeLeft = (timerStep d a s).1.totalTime) := by
  refine ⟨Nat.zero_le _, ?_, ?_⟩
  · unfold TimerInv at h ⊢
    cases a <;>
      simp only [timerStep, tick, handleStart, handlePause, handleReset, handleStop,
        handleTimerTypeChange, startBreak, skipBreak]
    · split
      · split
        · split <;> simp
        · simp; omega
      · exact h
    · exact h
    · exact h
    · cases s.mode <;> simp
    · simp
    · split
      · exact h
      · simp
    · simp
    · simp
    · split <;> exact h
  · intro ha
    subst ha
    simp only [timerStep, handleReset]
    cases s.mode <;> simp

theorem C7_step_preserves_invariant_witness :
    0 ≤ (timerStep 1 .reset (initTimer 1)).1.timeLeft ∧
    TimerInv (timerStep 1 .reset (initTimer 1)).1 ∧
    (TimerAction.reset = .reset →
      (timerStep 1 .reset (initTimer 1)).1.timeLeft =
        (timerStep 1 .reset (initTimer 1)).1.totalTime) :=
  C7_step_preserves_invariant 1 .reset (initTimer 1) (by decide)

/-- C8: the host's session-completed callback fires only on the explicit
mark-complete action taken with `state = completed` and `mode = study`;
in particular a tick (timer expiry) never fires it. -/
theorem C8_onComplete_only_mark_complete (d : Nat) (a : TimerAction) (s : Timer)
    (h : (timerStep d a s).2 = true) :
    a = .markComplete ∧ s.state = .completed ∧ s.mode = .study := by
  cases a <;> simp only [timerStep] at h
  case tick => exact absurd h (by simp)
  case start => exact absurd h (by simp)
  case pause => exact absurd h (by simp)
  case reset => exact absurd h (by simp)
  case stop => exact absurd h (by simp)
  case selectType t => exact absurd h (by simp)
  case startBreak => exact absurd h (by simp)
  case skipBreak => exact absurd h (by simp)
  case markComplete =>
    split at h
    · next hc => exact ⟨rfl, hc⟩
    · exact absurd h (by simp)

theorem C8_onComplete_only_mark_complete_witness :
    TimerAction.markComplete = .markComplete ∧
    (Timer.mk .custom .study .completed 0 60 0).state = .completed ∧
    (Timer.mk .custom .study .completed 0 60 0).mode = .study :=
  C8_onComplete_only_mark_complete 1 .markComplete
    (Timer.mk .custom .study .completed 0 60 0) (by decide)

/-! ## Goals & streak calculator (`GoalsAndStreaks`) -/

/-- One civil day in milliseconds (`86400000` in the source). -/
def dayMs : Int := 86400000

/-- The day index of an epoch-ms timestamp (floor division, as
`new Date(t).setHours(0,0,0,0)` truncates toward the previous midnight). -/
def dayIndex (t : Int) : Int := Int.fdiv t dayMs

/-- Local-midnight truncation of a timestamp, in epoch ms:
`new Date(t)` followed by `setHours(0,0,0,0)`, then `getTime()`. -/
def midnight (t : Int) : Int := dayIndex t * dayMs

/-- `[...new Set(sessions.filter(s => s.completed).map(... local midnight ...))]`:
the distinct local-midnight timestamps of completed sessions.  (`Set`
keeps first occurrences, `List.dedup` keeps last; the two agree after the
sort that every caller applies.) -/
def completedMidnights (sessions : List StudySession) : List Int :=
  ((sessions.filter (·.completed)).map (fun s => midnight s.startTime)).dedup

/-- Insertion step for a descending sort. -/
def insertDescInt (x : Int) : List Int → List Int
  | [] => [x]
  | y :: ys => if y ≤ x then x :: y :: ys else y :: insertDescInt x ys

/-- `sort((a, b) => b - a)`: numeric descending sort. -/
def sortDesc (l : List Int) : List Int := l.foldr insertDescInt []

/-- Insertion step for an ascending sort. -/
def insertAscInt (x : Int) : List Int → List Int
  | [] => [x]
  | y :: ys => if x ≤ y then x :: y :: ys else y :: insertAscInt x ys

/-- `sort((a, b) => a - b)`: numeric ascending sort. -/
def sortAsc (l : List Int) : List Int := l.foldr insertAscInt []

/-- The `for (const date of completedDates) { ... break }` loop of
`calculateStreak`: counts while `date === checkDate || date === checkDate
- 86400000`, moving `checkDate` to `date - 86400000`; the first failure
stops the walk. -/
def streakGo : Int → List Int → Nat
  | _, [] => 0
  | checkDate, d :: rest =>
      if d = checkDate ∨ d = checkDate - dayMs then 1 + streakGo (d - dayMs) rest
      else 0

/-- `calculateStreak` for reference time `now` (the source's `new Date()`,
truncated to local midnight as `today`). -/
def calculateStreak (sessions : List StudySession) (now : Int) : Nat :=
  let completedDates := sortDesc (completedMidnights sessions)
  match completedDates with
  | [] => 0
  | l => streakGo (midnight now) l

/-- The scanning loop of `calculateLongestStreak`: carries the previous
date, the current run length and the maximum so far. -/
def longestGo : Int → Nat → Nat → List Int → Nat
  | _, _, maxStreak, [] => maxStreak
  | prev, cur, maxStreak, d :: rest =>
      if d = prev + dayMs then longestGo d (cur + 1) (Nat.max maxStreak (cur + 1)) rest
      else longestGo d 1 maxStreak rest

/-- `calculateLongestStreak`: longest run of strictly consecutive distinct
completed days, over the ascending-sorted date list. -/
def calculateLongestStreak (sessions : List StudySession) : Nat :=
  match sortAsc (completedMidnights sessions) with
  | [] => 0
  | d :: rest => longestGo d 1 1 rest

/-- `getTodayProgress`: minutes of completed sessions dated today, against
`goals.dailyMinutes`. -/
def getTodayProgress (sessions : List StudySession) (goals : Goals) (now : Int) :
    Nat × Nat :=
  let todayMinutes :=
    ((sessions.filter
        (fun s => s.completed && decide (midnight s.startTime = midnight now))).map
      (·.duration)).sum
  (todayMinutes, goals.dailyMinutes)

/-- `startOfWeek`: local midnight of the most recent Sunday
(`setDate(getDate() - getDay())` then `setHours(0,0,0,0)`); epoch day 0 is
a Thursday, so `getDay` is `(dayIndex + 4) % 7`. -/
def startOfWeek (now : Int) : Int :=
  (dayIndex now - (dayIndex now + 4) % 7) * dayMs

/-- `getWeekProgress`: completed sessions with `sessionDate >= startOfWeek`
(the source imposes no upper bound on the window); returns
(minutes current/target, session-count current/target). -/
def getWeekProgress (sessions : List StudySession) (goals : Goals) (now : Int) :
    (Nat × Nat) × (Nat × Nat) :=
  let weekSessions :=
    sessions.filter (fun s => s.completed && decide (startOfWeek now ≤ s.startTime))
  let minutes := (weekSessions.map (·.duration)).sum
  ((minutes, goals.weeklyMinutes), (weekSessions.length, goals.weeklySessions))

/-- Modelled from the spec: weekly progress over the half-open window
`[start-of-week, start-of-week + 7 days)` — minutes and session count of
completed sessions whose start time lies inside the window. -/
def specWeekProgress (sessions : List StudySession) (now : Int) : Nat × Nat :=
  let windowSessions :=
    sessions.filter (fun s =>
      s.completed && decide (startOfWeek now ≤ s.startTime) &&
        decide (s.startTime < startOfWeek now + 7 * dayMs))
  (((windowSessions.map (·.duration)).sum), windowSessions.length)

/-- A completed session at timestamp `t` with duration `dur` minutes
(text fields are irrelevant to the calculator). -/
def mkCompleted (t : Int) (dur : Nat) : StudySession :=
  { id := [], subject := [], topic := [], duration := dur, startTime := t
    completed := true, difficulty := .easy }

/-- Completed sessions on day 10 and on day 8 (a 2-day gap), each at local
midnight. -/
def exStreakGap : List StudySession :=
  [mkCompleted (10 * 86400000) 30, mkCompleted (8 * 86400000) 30]

/-- C1: with completed sessions on day 10 and day 8 only and the reference
time inside day 10, `calculateStreak` returns 2 (its loop accepts
`date === checkDate - 86400000` at every step, not only at the anchor)
while `calculateLongestStreak` returns 1 — so the longest streak is
strictly smaller than the current streak, refuting the claimed
invariant. -/
theorem C1_current_exceeds_longest :
    calculateStreak exStreakGap (10 * 86400000 + 3600000) = 2 ∧
    calculateLongestStreak exStreakGap = 1 := by decide

/-- Fuel-bounded walk for the spec's streak: counts consecutive present
days downward from `d` (the fuel, one per distinct date, suffices). -/
def streakRunFrom (dates : List Int) : Nat → Int → Nat
  | 0, _ => 0
  | fuel + 1, d => if d ∈ dates then 1 + streakRunFrom dates fuel (d - dayMs) else 0

/-- Modelled from the spec: "streak = length of the maximal suffix of
consecutive calendar days, anchored at today or yesterday, with no gap >
1 day" — the anchor may be today or yesterday; after that each further
counted day is exactly one day earlier. -/
def specCurrentStreak (sessions : List StudySession) (now : Int) : Nat :=
  let dates := completedMidnights sessions
  let today := midnight now
  if today ∈ dates then streakRunFrom dates dates.length today
  else if today - dayMs ∈ dates then streakRunFrom dates dates.length (today - dayMs)
  else 0

/-- Completed sessions on day 20 and on day 18 only. -/
def exStreakGapB : List StudySession :=
  [mkCompleted (20 * 86400000) 45, mkCompleted (18 * 86400000) 45]

/-- C3: with completed sessions on day 20 and day 18 only and the
reference time inside day 20, the source's `calculateStreak` returns 2
(its loop re-applies the one-day grace at every step, so it bridges the
day-19 gap), while the spec's maximal consecutive suffix anchored at
today has length 1. -/
theorem C3_streak_bridges_gap :
    calculateStreak exStreakGapB (20 * 86400000 + 7200000) = 2 ∧
    specCurrentStreak exStreakGapB (20 * 86400000 + 7200000) = 1 := by decide

/-- A completed 60-minute session at the upper week boundary: local
midnight of day 10, the Sunday that ends the week containing day 3. -/
def exBoundarySession : StudySession := mkCompleted (10 * 86400000) 60

/-- Example goal thresholds. -/
def exGoals : Goals := ⟨120, 600, 5⟩

/-- Noon of day 3 (a Sunday: `(3 + 4) % 7 = 0`). -/
def exWeekNow : Int := 3 * 86400000 + 43200000

/-- C2: a completed session whose start time is exactly the window's end
(next Sunday 00:00:00) is counted by `getWeekProgress` (60 minutes, 1
session) because the source's filter has no upper bound, but the spec's
half-open window `[Sunday, Sunday + 7 days)` excludes it (0 minutes, 0
sessions). -/
theorem C2_counterexample_no_upper_bound :
    (getWeekProgress [exBoundarySession] exGoals exWeekNow).1.1 = 60 ∧
    (getWeekProgress [exBoundarySession] exGoals exWeekNow).2.1 = 1 ∧
    specWeekProgress [exBoundarySession] exWeekNow = (0, 0) := by decide

/-- C2 (amended): the source counts every completed session with start
time `≥ startOfWeek`, with no upper bound; hence it agrees with the
spec's half-open weekly window exactly when no session starts at or after
the window's end. -/
theorem C2_week_progress_amended (sessions : List StudySession) (goals : Goals)
    (now : Int)
    (h : ∀ s ∈ sessions, s.startTime < startOfWeek now + 7 * dayMs) :
    (getWeekProgress sessions goals now).1.1 = (specWeekProgress sessions now).1 ∧
    (getWeekProgress sessions goals now).2.1 = (specWeekProgress sessions now).2 := by
  have hf : sessions.filter
      (fun s => s.completed && decide (startOfWeek now ≤ s.startTime)) =
      sessions.filter (fun s =>
        s.completed && decide (startOfWeek now ≤ s.startTime) &&
          decide (s.startTime < startOfWeek now + 7 * dayMs)) := by
    apply List.filter_congr
    intro s hs
    simp [h s hs]
  unfold getWeekProgress specWeekProgress
  rw [hf]
  exact ⟨rfl, rfl⟩

/-- A completed 60-minute session at noon of day 4. -/
def exInWeekSession : StudySession := mkCompleted (4 * 86400000 + 43200000) 60

theorem C2_week_progress_amended_witness :
    (getWeekProgress [exInWeekSession] exGoals exWeekNow).1.1 =
      (specWeekProgress [exInWeekSession] exWeekNow).1 ∧
    (getWeekProgress [exInWeekSession] exGoals exWeekNow).2.1 =
      (specWeekProgress [exInWeekSession] exWeekNow).2 :=
  C2_week_progress_amended [exInWeekSession] exGoals exWeekNow (by decide)

/-! ## Percentage computations (`GoalsAndStreaks` render expressions) -/

/-- A JavaScript number that may be non-finite: needed because the
percentage expressions divide by a goal target that can be 0. -/
inductive JsVal where
  | num (q : ℚ)
  | nan
  | inf
  | ninf
deriving DecidableEq

/-- JS division of two finite numbers: division by zero yields `NaN`
(0/0) or a signed infinity, never an exception. -/
def jsDiv (a b : ℚ) : JsVal :=
  if b = 0 then (if a = 0 then .nan else if 0 < a then .inf else .ninf)
  else .num (a / b)

/-- JS multiplication of a possibly non-finite value by a finite literal
(the `* 100` of the percentage expressions). -/
def jsMulFin (v : JsVal) (c : ℚ) : JsVal :=
  match v with
  | .num q => .num (q * c)
  | .nan => .nan
  | .inf => if 0 < c then .inf else if c = 0 then .nan else .ninf
  | .ninf => if 0 < c then .ninf else if c = 0 then .nan else .inf

/-- `Math.round`: `⌊x + 1/2⌋` on finite values; `NaN` and `±∞` are fixed
points. -/
def jsRound (v : JsVal) : JsVal :=
  match v with
  | .num q => .num ((Int.floor (q + 1 / 2) : Int) : ℚ)
  | v => v

/-- `Math.round((current / target) * 100)`, the percentage expression the
component renders for each goal. -/
def goalPercentRounded (current target : Nat) : JsVal :=
  jsRound (jsMulFin (jsDiv (current : ℚ) (target : ℚ)) 100)

/-- The daily-goal percentage:
`Math.round((todayProgress.current / todayProgress.target) * 100)`. -/
def dailyGoalPercent (sessions : List StudySession) (goals : Goals) (now : Int) :
    JsVal :=
  goalPercentRounded (getTodayProgress sessions goals now).1
    (getTodayProgress sessions goals now).2

/-- The weekly-minutes percentage:
`Math.round((weekProgress.minutes.current / weekProgress.minutes.target) * 100)`. -/
def weeklyMinutesPercent (sessions : List StudySession) (goals : Goals) (now : Int) :
    JsVal :=
  goalPercentRounded (getWeekProgress sessions goals now).1.1
    (getWeekProgress sessions goals now).1.2

/-- The weekly-sessions percentage:
`Math.round((weekProgress.sessions.current / weekProgress.sessions.target) * 100)`. -/
def weeklySessionsPercent (sessions : List StudySession) (goals : Goals) (now : Int) :
    JsVal :=
  goalPercentRounded (getWeekProgress sessions goals now).2.1
    (getWeekProgress sessions goals now).2.2

/-- With a zero target the percentage expression is `NaN` (zero current)
or `+∞` (positive current): never a finite number. -/
theorem goalPercentRounded_zero_target (current : Nat) :
    goalPercentRounded current 0 = .nan ∨ goalPercentRounded current 0 = .inf := by
  unfold goalPercentRounded jsDiv
  by_cases h : (current : ℚ) = 0
  · left
    simp [h, jsMulFin, jsRound]
  · right
    have hpos : 0 < (current : ℚ) := by
      have : 0 < current := Nat.pos_of_ne_zero (by exact_mod_cast h)
      exact_mod_cast this
    simp [h, hpos, jsMulFin, jsRound]

/-- All-zero goal targets. -/
def zeroGoals : Goals := ⟨0, 0, 0⟩

/-- A completed 60-minute session at noon of day 0. -/
def exDayZeroSession : StudySession := mkCompleted 43200000 60

/-- C5 (counterexample): the percentage computations do not guard the
zero denominator — with every target 0, an empty session list gives a
`NaN` daily percentage and a completed 60-minute session dated today
gives an infinite one; neither is a defined/clamped numeric value. -/
theorem C5_counterexample_zero_target :
    dailyGoalPercent [] zeroGoals 3600000 = JsVal.nan ∧
    dailyGoalPercent [exDayZeroSession] zeroGoals 3600000 = JsVal.inf := by decide

/-- C5 (amended): the source divides by the target unguarded; when every
target is 0 each of the three percentages is `NaN` or `+∞` (an undefined
percentage rather than a clamped default), though the computation is
total — JS division never throws. -/
theorem C5_zero_target_unguarded (sessions : List StudySession) (goals : Goals)
    (now : Int) (hd : goals.dailyMinutes = 0) (hw : goals.weeklyMinutes = 0)
    (hs : goals.weeklySessions = 0) :
    (dailyGoalPercent sessions goals now = .nan ∨
      dailyGoalPercent sessions goals now = .inf) ∧
    (weeklyMinutesPercent sessions goals now = .nan ∨
      weeklyMinutesPercent sessions goals now = .inf) ∧
    (weeklySessionsPercent sessions goals now = .nan ∨
      weeklySessionsPercent sessions goals now = .inf) := by
  refine ⟨?_, ?_, ?_⟩
  · have h2 : (getTodayProgress sessions goals now).2 = 0 := hd
    rw [dailyGoalPercent, h2]
    exact goalPercentRounded_zero_target _
  · have h2 : (getWeekProgress sessions goals now).1.2 = 0 := hw
    rw [weeklyMinutesPercent, h2]
    exact goalPercentRounded_zero_target _
  · have h2 : (getWeekProgress sessions goals now).2.2 = 0 := hs
    rw [weeklySessionsPercent, h2]
    exact goalPercentRounded_zero_target _

theorem C5_zero_target_unguarded_witness :
    (dailyGoalPercent [] zeroGoals 0 = .nan ∨ dailyGoalPercent [] zeroGoals 0 = .inf) ∧
    (weeklyMinutesPercent [] zeroGoals 0 = .nan ∨
      weeklyMinutesPercent [] zeroGoals 0 = .inf) ∧
    (weeklySessionsPercent [] zeroGoals 0 = .nan ∨
      weeklySessionsPercent [] zeroGoals 0 = .inf) :=
  C5_zero_target_unguarded [] zeroGoals 0 rfl rfl rfl

/-! ## Study-plan generator (`generateCSStudyPlan`, serverless endpoint) -/

/-- Whether `pat` is an initial segment of `text`. -/
def leadsWith : List Char → List Char → Bool
  | [], _ => true
  | _ :: _, [] => false
  | a :: as, b :: bs => a == b && leadsWith as bs

/-- `text.includes(pat)`: `pat` occurs contiguously in `text` (the empty
pattern always matches, as in JS). -/
def containsSeq (pat : List Char) : List Char → Bool
  | [] => leadsWith pat []
  | c :: rest => leadsWith pat (c :: rest) || containsSeq pat rest

/-- The static `csTopics` lookup table of the serverless endpoint. -/
def csTopics : List (List Char × List (List Char)) :=
  [("data structures".data,
    ["Arrays and Strings - Basic operations and common algorithms".data,
     "Linked Lists - Single, Double, and Circular implementations".data,
     "Stacks and Queues - Implementation and applications".data,
     "Trees - Binary Trees, BST, AVL Trees".data,
     "Heaps - Min Heap, Max Heap, Priority Queue".data,
     "Hash Tables - Hash functions and collision resolution".data,
     "Graphs - Representations and traversal algorithms (BFS, DFS)".data,
     "Advanced Trees - B-Trees, Red-Black Trees, Tries".data,
     "Sorting Algorithms - Quick Sort, Merge Sort, Heap Sort".data,
     "Searching Algorithms - Binary Search variations".data,
     "Dynamic Programming - Common patterns".data,
     "Greedy Algorithms - Problem-solving techniques".data,
     "Graph Algorithms - Dijkstra, Bellman-Ford, MST".data,
     "String Algorithms - KMP, Rabin-Karp".data]),
   ("algorithms".data,
    ["Algorithm Complexity - Big O notation and analysis".data,
     "Recursion - Base cases and recursive thinking".data,
     "Divide and Conquer - Merge Sort, Quick Sort".data,
     "Dynamic Programming Basics - Memoization vs Tabulation".data,
     "Greedy Algorithms - Activity Selection, Huffman Coding".data,
     "Backtracking - N-Queens, Sudoku Solver".data,
     "Graph Traversal - BFS and DFS applications".data,
     "Shortest Path - Dijkstra and Bellman-Ford".data,
     "Minimum Spanning Tree - Kruskal and Prim algorithms".data,
     "String Matching - KMP, Boyer-Moore".data,
     "Advanced DP - Knapsack, LCS, Edit Distance".data,
     "Network Flow - Max Flow, Min Cut".data,
     "NP-Complete Problems - Understanding complexity classes".data,
     "Approximation Algorithms - Practical solutions".data]),
   ("operating systems".data,
    ["OS Fundamentals - Components and architecture".data,
     "Process Management - States, PCB, Context Switching".data,
     "CPU Scheduling - FCFS, SJF, Round Robin, Priority".data,
     "Process Synchronization - Critical Section Problem".data,
     "Deadlocks - Detection, Prevention, Avoidance".data,
     "Memory Management - Contiguous and Paging".data,
     "Virtual Memory - Demand Paging, Page Replacement".data,
     "File Systems - Structure and Implementation".data,
     "I/O Systems - Device Management".data,
     "Threading - User vs Kernel threads".data,
     "Concurrency Control - Semaphores, Monitors, Mutexes".data,
     "Disk Management - Scheduling algorithms".data,
     "Security and Protection - Access control".data,
     "Case Studies - Linux, Windows internals".data]),
   ("database".data,
    ["DBMS Fundamentals - Data Models and Architecture".data,
     "Relational Model - Relations, Keys, Integrity".data,
     "SQL Basics - DDL, DML, DCL commands".data,
     "Advanced SQL - Joins, Subqueries, Views".data,
     "Normalization - 1NF, 2NF, 3NF, BCNF".data,
     "Transaction Management - ACID properties".data,
     "Concurrency Control - Locking protocols".data,
     "Recovery Techniques - Log-based recovery".data,
     "Indexing - B+ Trees, Hash Indexing".data,
     "Query Optimization - Query processing".data,
     "NoSQL Databases - Document, Key-Value stores".data,
     "Database Security - Access control, SQL injection".data,
     "Distributed Databases - CAP theorem".data,
     "Database Design - ER Diagrams, Schema design".data]),
   ("computer networks".data,
    ["Network Fundamentals - OSI and TCP/IP models".data,
     "Physical Layer - Transmission media, encoding".data,
     "Data Link Layer - Framing, Error detection".data,
     "MAC Protocols - ALOHA, CSMA/CD, CSMA/CA".data,
     "Network Layer - IPv4, IPv6, Subnetting".data,
     "Routing Algorithms - Distance Vector, Link State".data,
     "Transport Layer - TCP and UDP".data,
     "Flow Control - Sliding Window protocols".data,
     "Congestion Control - TCP congestion algorithms".data,
     "Application Layer - HTTP, DNS, SMTP, FTP".data,
     "Network Security - Cryptography basics".data,
     "Wireless Networks - WiFi, Mobile networks".data,
     "Network Management - SNMP, Performance".data,
     "Modern Protocols - HTTP/2, WebSockets, QUIC".data]),
   ("machine learning".data,
    ["ML Fundamentals - Types of learning, workflow".data,
     "Linear Regression - Theory and implementation".data,
     "Logistic Regression - Binary classification".data,
     "Decision Trees - Construction and pruning".data,
     "Random Forests - Ensemble learning".data,
     "Support Vector Machines - Kernel methods".data,
     "Neural Networks - Backpropagation".data,
     "Deep Learning - CNNs for image processing".data,
     "Recurrent Networks - RNNs, LSTMs for sequences".data,
     "Unsupervised Learning - K-means, Hierarchical".data,
     "Dimensionality Reduction - PCA, t-SNE".data,
     "Model Evaluation - Cross-validation, metrics".data,
     "Regularization - L1, L2, Dropout".data,
     "Advanced Topics - Transfer Learning, GANs".data]),
   ("web development".data,
    ["HTML Fundamentals - Semantic markup, forms".data,
     "CSS Basics - Selectors, Box model, Flexbox".data,
     "CSS Grid - Layout techniques".data,
     "JavaScript Fundamentals - ES6+ features".data,
     "DOM Manipulation - Events and handlers".data,
     "Async JavaScript - Promises, Async/Await".data,
     "React Basics - Components, Props, State".data,
     "React Hooks - useState, useEffect, custom hooks".data,
     "State Management - Context API, Redux".data,
     "Backend Basics - Node.js, Express".data,
     "RESTful APIs - Design and implementation".data,
     "Database Integration - SQL and NoSQL".data,
     "Authentication - JWT, OAuth".data,
     "Deployment - CI/CD, Docker basics".data]),
   ("python".data,
    ["Python Basics - Syntax, data types, operators".data,
     "Control Flow - If/else, loops, functions".data,
     "Data Structures - Lists, tuples, dictionaries, sets".data,
     "Object-Oriented Programming - Classes, inheritance".data,
     "File Handling - Reading/writing files".data,
     "Exception Handling - Try/except blocks".data,
     "Modules and Packages - Imports, pip".data,
     "List Comprehensions - Advanced syntax".data,
     "Lambda Functions - Functional programming".data,
     "Decorators - Function wrappers".data,
     "Generators - Yield and iterators".data,
     "Multithreading - Concurrent execution".data,
     "Regular Expressions - Pattern matching".data,
     "Popular Libraries - NumPy, Pandas basics".data]),
   ("java".data,
    ["Java Basics - Syntax, data types, operators".data,
     "OOP Fundamentals - Classes, objects, methods".data,
     "Inheritance - Extends, super, method overriding".data,
     "Polymorphism - Method overloading, interfaces".data,
     "Abstraction - Abstract classes, interfaces".data,
     "Encapsulation - Access modifiers, getters/setters".data,
     "Exception Handling - Try-catch-finally".data,
     "Collections Framework - List, Set, Map".data,
     "Generics - Type parameters".data,
     "Multithreading - Thread class, Runnable".data,
     "File I/O - Streams, readers, writers".data,
     "JDBC - Database connectivity".data,
     "Java 8 Features - Lambda, Stream API".data,
     "Spring Framework - Dependency Injection basics".data]),
   ("c++".data,
    ["C++ Basics - Syntax, data types, I/O".data,
     "Functions - Declaration, definition, overloading".data,
     "Pointers - Memory addresses, pointer arithmetic".data,
     "References - Pass by reference".data,
     "Classes and Objects - Constructors, destructors".data,
     "Inheritance - Single, multiple, multilevel".data,
     "Polymorphism - Virtual functions, abstract classes".data,
     "Operator Overloading - Custom operators".data,
     "Templates - Function and class templates".data,
     "STL Containers - Vector, list, map, set".data,
     "STL Algorithms - Sort, find, transform".data,
     "Exception Handling - Try-catch blocks".data,
     "File Handling - Streams and file operations".data,
     "Smart Pointers - unique_ptr, shared_ptr".data])]

/-- The generic fallback topic list built by string interpolation from the
subject when no table key matches. -/
def genericTopics (subject : List Char) : List (List Char) :=
  [subject ++ " - Introduction and fundamentals".data,
   subject ++ " - Core concepts and terminology".data,
   subject ++ " - Basic operations and techniques".data,
   subject ++ " - Intermediate topics and patterns".data,
   subject ++ " - Advanced concepts".data,
   subject ++ " - Problem-solving strategies".data,
   subject ++ " - Best practices and optimization".data,
   subject ++ " - Real-world applications".data,
   subject ++ " - Common pitfalls and debugging".data,
   subject ++ " - Testing and validation".data,
   subject ++ " - Performance considerations".data,
   subject ++ " - Integration with other technologies".data,
   subject ++ " - Case studies and examples".data,
   subject ++ " - Review and practice problems".data]

/-- The `for (const [key, value] of Object.entries(csTopics))` matching
loop: the first entry whose key and the lowercased subject include one
another, `[]` when none matches. -/
def lookupTopics (subjectLower : List Char) :
    List (List Char × List (List Char)) → List (List Char)
  | [] => []
  | (key, value) :: rest =>
      if containsSeq key subjectLower || containsSeq subjectLower key then value
      else lookupTopics subjectLower rest

/-- Topic selection: lowercase the subject, take the first matching table
entry, fall back to the generic list when the result is empty. -/
def selectTopics (subject : List Char) : List (List Char) :=
  let subjectLower := subject.map Char.toLower
  let t := lookupTopics subjectLower csTopics
  if t = [] then genericTopics subject else t

/-- One entry of the returned plan: `{ day, topics, focus }`. -/
structure PlanDay where
  day : Nat
  topics : List (List Char)
  focus : List Char
deriving DecidableEq, Repr

/-- The `focus` label of a day. -/
def dayFocus (day days : Nat) : List Char :=
  if day = 1 then "Foundation".data
  else if day = days then "Review & Practice".data
  else if day ≤ (days + 1) / 2 then "Building Knowledge".data
  else "Advanced Concepts".data

/-- `generateCSStudyPlan`: distributes the selected topics over the days,
`topicsPerDay = Math.ceil(topics.length / days)` (for `days ≥ 1` this is
`(length + days - 1) / days`); day `d` takes
`topics.slice((d-1)*tpd, min((d-1)*tpd + tpd, length))`, i.e. drop then
take, and only days with a non-empty slice are pushed. -/
def generateCSStudyPlan (subject : List Char) (days : Nat) : List PlanDay :=
  let topics := selectTopics subject
  let topicsPerDay := (topics.length + days - 1) / days
  (List.range days).filterMap (fun i =>
    let day := i + 1
    let dayTopics := (topics.drop ((day - 1) * topicsPerDay)).take topicsPerDay
    if dayTopics = [] then none
    else some { day := day, topics := dayTopics, focus := dayFocus day days })

/-- The per-day step of `generateCSStudyPlan`, with the selected topics,
the per-day chunk size and the total day count abstracted out. -/
def planStep (topics : List (List Char)) (tpd days i : Nat) : Option PlanDay :=
  let dayTopics := (topics.drop (i * tpd)).take tpd
  if dayTopics = [] then none
  else some { day := i + 1, topics := dayTopics, focus := dayFocus (i + 1) days }

theorem generateCSStudyPlan_eq (subject : List Char) (days : Nat) :
    generateCSStudyPlan subject days =
      (List.range days).filterMap
        (planStep (selectTopics subject)
          (((selectTopics subject).length + days - 1) / days) days) := rfl

/-- Concatenating the `tpd`-sized chunks of a list recovers the list, as
soon as the chunks cover its length. -/
theorem join_chunks {α : Type} (tpd : Nat) :
    ∀ (days : Nat) (topics : List α), topics.length ≤ days * tpd →
      ((List.range days).map (fun i => (topics.drop (i * tpd)).take tpd)).flatten
        = topics := by
  intro days
  induction days with
  | zero =>
    intro topics h
    simp only [Nat.zero_mul, Nat.le_zero] at h
    simp [List.eq_nil_of_length_eq_zero h]
  | succ n ih =>
    intro topics h
    rw [List.range_succ_eq_map, List.map_cons, List.map_map]
    have hmap : (List.range n).map
        ((fun i => (topics.drop (i * tpd)).take tpd) ∘ Nat.succ)
        = (List.range n).map
          (fun i => ((topics.drop tpd).drop (i * tpd)).take tpd) := by
      apply List.map_congr_left
      intro i _
      show (topics.drop (Nat.succ i * tpd)).take tpd = _
      rw [List.drop_drop]
      congr 1
      congr 1
      rw [Nat.succ_mul]
      ring
    rw [hmap]
    have hlen : (topics.drop tpd).length ≤ n * tpd := by
      rw [List.length_drop]
      have hmul : (n + 1) * tpd = n * tpd + tpd := by ring
      omega
    simp only [List.flatten_cons, ih (topics.drop tpd) hlen, Nat.zero_mul,
      List.drop_zero]
    exact List.take_append_drop tpd topics

/-- Dropping the empty chunks before concatenation changes nothing. -/
theorem join_filterMap_if {α : Type} [DecidableEq α] (f : ℕ → List α) (l : List ℕ) :
    (l.filterMap (fun i => if f i = [] then none else some (f i))).flatten
      = (l.map f).flatten := by
  induction l with
  | nil => rfl
  | cons a t ih =>
    by_cases h : f a = []
    · simp [List.filterMap_cons, h, ih]
    · simp [List.filterMap_cons, h, ih]

/-- `Math.ceil`-style chunking covers the whole list: for `days ≥ 1`,
`len ≤ days * ((len + days - 1) / days)`. -/
theorem ceil_mul_ge (len days : Nat) (hd : 1 ≤ days) :
    len ≤ days * ((len + days - 1) / days) := by
  have h1 := Nat.div_add_mod (len + days - 1) days
  have h2 : (len + days - 1) % days < days := Nat.mod_lt _ (by omega)
  omega

/-- The matching loop returns `[]` or one of the table's topic lists. -/
theorem lookupTopics_cases (sl : List Char) :
    ∀ (table : List (List Char × List (List Char))),
      (∀ p ∈ table, (p.2).length = 14) →
      lookupTopics sl table = [] ∨ (lookupTopics sl table).length = 14 := by
  intro table
  induction table with
  | nil => intro _; left; rfl
  | cons p rest ih =>
    intro h
    obtain ⟨key, value⟩ := p
    by_cases hc : (containsSeq key sl || containsSeq sl key) = true
    · right
      simp only [lookupTopics, hc, if_true]
      exact h (key, value) (by simp)
    · simp only [lookupTopics, hc, if_false, Bool.false_eq_true]
      exact ih (fun q hq => h q (by simp [hq]))

/-- The selected topic list (table entry or generic fallback) always has
exactly 14 topics. -/
theorem selectTopics_length (subject : List Char) :
    (selectTopics subject).length = 14 := by
  unfold selectTopics
  have h14 : ∀ p ∈ csTopics, (p.2).length = 14 := by decide
  rcases lookupTopics_cases (subject.map Char.toLower) csTopics h14 with h | h
  · simp [h, genericTopics]
  · have hne : lookupTopics (subject.map Char.toLower) csTopics ≠ [] := by
      intro he
      rw [he] at h
      simp at h
    simp [hne, h]

/-- The value of a kept plan entry determines its day number. -/
theorem planStep_day (topics : List (List Char)) (tpd days i : Nat)
    (pd : PlanDay) (h : planStep topics tpd days i = some pd) : pd.day = i + 1 := by
  simp only [planStep] at h
  split at h
  · exact absurd h (by simp)
  · cases h
    rfl

/-- A kept plan entry has a non-empty topic list. -/
theorem planStep_topics_ne_nil (topics : List (List Char)) (tpd days i : Nat)
    (pd : PlanDay) (h : planStep topics tpd days i = some pd) : pd.topics ≠ [] := by
  simp only [planStep] at h
  split at h
  · exact absurd h (by simp)
  · next hne =>
    cases h
    exact hne

/-- C10: for every subject and every `days ≥ 1`, the generated plan's day
entries carry strictly increasing day numbers, the first entry is day 1,
every entry's topic list is non-empty, and the topic lists concatenate —
in order and without loss or duplication — to the 14-topic list selected
for the subject (a table entry, or the generic fallback when no key
matches). -/
theorem C10_plan_structure (subject : List Char) (days : Nat) (hd : 1 ≤ days) :
    (∀ pd ∈ generateCSStudyPlan subject days, pd.topics ≠ []) ∧
    List.Pairwise (fun a b => a.day < b.day) (generateCSStudyPlan subject days) ∧
    ((generateCSStudyPlan subject days).map PlanDay.day).head? = some 1 ∧
    ((generateCSStudyPlan subject days).map PlanDay.topics).flatten
      = selectTopics subject ∧
    (selectTopics subject).length = 14 := by
  have hlen := selectTopics_length subject
  refine ⟨?_, ?_, ?_, ?_, hlen⟩
  · intro pd hpd
    rw [generateCSStudyPlan_eq] at hpd
    obtain ⟨i, _, hgi⟩ := List.mem_filterMap.mp hpd
    exact planStep_topics_ne_nil _ _ _ _ _ hgi
  · rw [generateCSStudyPlan_eq, List.pairwise_filterMap]
    refine List.Pairwise.imp ?_ (List.pairwise_lt_range days)
    intro i j hij b hb b' hb'
    rw [planStep_day _ _ _ _ _ hb, planStep_day _ _ _ _ _ hb']
    omega
  · obtain ⟨n, rfl⟩ : ∃ n, days = n + 1 := ⟨days - 1, by omega⟩
    rw [generateCSStudyPlan_eq, List.range_succ_eq_map, List.filterMap_cons]
    have htpd : 1 ≤ ((selectTopics subject).length + (n + 1) - 1) / (n + 1) := by
      rw [hlen]
      rw [Nat.one_le_div_iff (by omega)]
      omega
    have h0 : planStep (selectTopics subject)
        (((selectTopics subject).length + (n + 1) - 1) / (n + 1)) (n + 1) 0 =
        some { day := 1
               topics := ((selectTopics subject).drop
                 (0 * (((selectTopics subject).length + (n + 1) - 1) / (n + 1)))).take
                 (((selectTopics subject).length + (n + 1) - 1) / (n + 1))
               focus := dayFocus 1 (n + 1) } := by
      have hne : ((selectTopics subject).take
          (((selectTopics subject).length + (n + 1) - 1) / (n + 1))) ≠ [] := by
        rw [Ne, List.take_eq_nil_iff]
        push_neg
        constructor
        · omega
        · intro he
          rw [he] at hlen
          simp at hlen
      simp only [planStep, Nat.zero_mul, List.drop_zero]
      rw [if_neg hne]
    rw [h0]
    rfl
  · rw [generateCSStudyPlan_eq, List.map_filterMap]
    have hfun : (fun i => (planStep (selectTopics subject)
        (((selectTopics subject).length + days - 1) / days) days i).map
          PlanDay.topics)
        = fun i => if ((selectTopics subject).drop
            (i * (((selectTopics subject).length + days - 1) / days))).take
            (((selectTopics subject).length + days - 1) / days) = [] then none
          else some (((selectTopics subject).drop
            (i * (((selectTopics subject).length + days - 1) / days))).take
            (((selectTopics subject).length + days - 1) / days)) := by
      funext i
      simp only [planStep]
      by_cases hc : ((selectTopics subject).drop
          (i * (((selectTopics subject).length + days - 1) / days))).take
          (((selectTopics subject).length + days - 1) / days) = []
      · simp [hc]
      · simp [hc]
    rw [hfun, join_filterMap_if, join_chunks]
    exact ceil_mul_ge _ days hd

theorem C10_plan_structure_witness :
    (∀ pd ∈ generateCSStudyPlan ("algorithms".data) 5, pd.topics ≠ []) ∧
    List.Pairwise (fun a b => a.day < b.day) (generateCSStudyPlan ("algorithms".data) 5) ∧
    ((generateCSStudyPlan ("algorithms".data) 5).map PlanDay.day).head? = some 1 ∧
    ((generateCSStudyPlan ("algorithms".data) 5).map PlanDay.topics).flatten
      = selectTopics ("algorithms".data) ∧
    (selectTopics ("algorithms".data)).length = 14 :=
  C10_plan_structure ("algorithms".data) 5 (by decide)

/-! ## Calendar export (`calendarExport.ts`) -/

/-- Shorthand: the character list of a string literal. -/
def lit (s : String) : List Char := s.data

/-- One character of `escapeText`'s output.  The source applies four
sequential global replaces (`\ → \\`, `; → \;`, `, → \,`, newline → `\n`);
since no replacement ever produces one of the later-targeted characters,
the composite equals this per-character expansion. -/
def escapeChar (c : Char) : List Char :=
  if c = '\\' then ['\\', '\\']
  else if c = ';' then ['\\', ';']
  else if c = ',' then ['\\', ',']
  else if c = '\n' then ['\\', 'n']
  else [c]

/-- `escapeText`: escape backslash, semicolon, comma and newline. -/
def escapeText (text : List Char) : List Char := (text.map escapeChar).flatten

/-- The literal of a `difficulty` value. -/
def difficultyText : Difficulty → List Char
  | .easy => lit "easy"
  | .medium => lit "medium"
  | .hard => lit "hard"

/-- Decimal digits of `n`, left-padded with zeros to width `w`. -/
def padNum (w n : Nat) : List Char :=
  let s := (toString n).data
  List.replicate (w - s.length) '0' ++ s

/-- Proleptic-Gregorian civil date (year, month, day) of an epoch day
number (days since 1970-01-01), by the standard era/day-of-era
decomposition. -/
def civilFromDays (z : Int) : Int × Nat × Nat :=
  let z' := z + 719468
  let era := Int.fdiv z' 146097
  let doe := (z' - era * 146097).toNat
  let yoe := (doe - doe / 1460 + doe / 36524 - doe / 146096) / 365
  let doy := doe - (365 * yoe + yoe / 4 - yoe / 100)
  let mp := (5 * doy + 2) / 153
  let d := doy - (153 * mp + 2) / 5 + 1
  let m := if mp < 10 then mp + 3 else mp - 9
  ((yoe : Int) + era * 400 + (if m ≤ 2 then 1 else 0), m, d)

/-- `formatDate`: `date.toISOString().replace(/[-:]/g, '').split('.')[0] + 'Z'`,
i.e. the UTC timestamp `YYYYMMDDTHHMMSSZ` of the epoch-ms time `t`
(years are rendered 4-digit; the expanded-year forms `toISOString` uses
outside years 0–9999 are not modelled). -/
def formatDate (t : Int) : List Char :=
  let day := Int.fdiv t 86400000
  let rem := (t - day * 86400000).toNat
  let c := civilFromDays day
  padNum 4 c.1.toNat ++ padNum 2 c.2.1 ++ padNum 2 c.2.2 ++ ['T'] ++
    padNum 2 (rem / 3600000) ++ padNum 2 (rem % 3600000 / 60000) ++
    padNum 2 (rem % 60000 / 1000) ++ ['Z']

/-- `` `Study session: ${session.topic}` `` — the unescaped base text of the
DESCRIPTION value. -/
def descBase (s : StudySession) : List Char := lit "Study session: " ++ s.topic

/-- The DESCRIPTION value after the optional `session.description` part
(appended only when the description is truthy, i.e. present and
non-empty, with an escaped body after a literal `\n\n`). -/
def descAfterDescription (s : StudySession) : List Char :=
  match s.description with
  | some d => if d = [] then descBase s else descBase s ++ lit "\\n\\n" ++ escapeText d
  | none => descBase s

/-- `array.join(sep)`: JS join of a list of strings. -/
def joinWith (sep : List Char) : List (List Char) → List Char
  | [] => []
  | [x] => x
  | x :: y :: t => x ++ sep ++ joinWith sep (y :: t)

/-- The DESCRIPTION value after the optional goals part (appended when
`session.goals` is non-empty: a literal `\n\nGoals:\n` then `- `-prefixed
escaped goals joined with literal `\n`). -/
def descAfterGoals (s : StudySession) : List Char :=
  if s.goals = [] then descAfterDescription s
  else descAfterDescription s ++ lit "\\n\\nGoals:\\n" ++
    joinWith (lit "\\n") (s.goals.map (fun g => lit "- " ++ escapeText g))

/-- The full DESCRIPTION value: the above plus `\n\nDifficulty: <d>`. -/
def eventDescription (s : StudySession) : List Char :=
  descAfterGoals s ++ lit "\\n\\nDifficulty: " ++ difficultyText s.difficulty

/-- `generateEvent`: the VEVENT block of one session (`now` is the
`new Date()` used for DTSTAMP); `endDate = startDate + duration * 60000`. -/
def generateEvent (now : Int) (s : StudySession) : List Char :=
  lit "BEGIN:VEVENT" ++ lit "\n" ++
  lit "UID:" ++ s.id ++ lit "@studysmart.app" ++ lit "\n" ++
  lit "DTSTAMP:" ++ formatDate now ++ lit "\n" ++
  lit "DTSTART:" ++ formatDate s.startTime ++ lit "\n" ++
  lit "DTEND:" ++ formatDate (s.startTime + (s.duration : Int) * 60000) ++ lit "\n" ++
  lit "SUMMARY:" ++ escapeText (s.subject ++ lit ": " ++ s.topic) ++ lit "\n" ++
  lit "DESCRIPTION:" ++ eventDescription s ++ lit "\n" ++
  lit "STATUS:" ++ (if s.completed then lit "CONFIRMED" else lit "TENTATIVE") ++ lit "\n" ++
  lit "CATEGORIES:Study," ++ s.subject ++ lit "," ++ difficultyText s.difficulty ++ lit "\n" ++
  lit "BEGIN:VALARM" ++ lit "\n" ++
  lit "TRIGGER:-PT15M" ++ lit "\n" ++
  lit "DESCRIPTION:Study session starting in 15 minutes" ++ lit "\n" ++
  lit "ACTION:DISPLAY" ++ lit "\n" ++
  lit "END:VALARM" ++ lit "\n" ++
  lit "END:VEVENT"

/-- `generateICSContent`: the VCALENDAR wrapper around the
newline-joined events. -/
def generateICSContent (now : Int) (sessions : List StudySession) : List Char :=
  lit "BEGIN:VCALENDAR" ++ lit "\n" ++
  lit "VERSION:2.0" ++ lit "\n" ++
  lit "PRODID:-//StudySmart//Study Scheduler//EN" ++ lit "\n" ++
  lit "CALSCALE:GREGORIAN" ++ lit "\n" ++
  lit "METHOD:PUBLISH" ++ lit "\n" ++
  joinWith (lit "\n") (sessions.map (generateEvent now)) ++ lit "\n" ++
  lit "END:VCALENDAR"

/-- Whether `pat` is a final segment of `l`. -/
def endsWith (pat l : List Char) : Bool := leadsWith pat.reverse l.reverse

/-- Escape-cleanliness of an ICS text value: every `;`, `,` and newline
is consumed by a preceding backslash. -/
def escapedScan : Bool → List Char → Bool
  | _, [] => true
  | true, _ :: rest => escapedScan false rest
  | false, c :: rest =>
      if c = '\\' then escapedScan true rest
      else if c = ';' ∨ c = ',' ∨ c = '\n' then false
      else escapedScan false rest

/-- A text value is escape-clean when the scan accepts it. -/
def textEscapedOk (l : List Char) : Bool := escapedScan false l

theorem leadsWith_refl_append : ∀ (pat rest : List Char), leadsWith pat (pat ++ rest) = true
  | [], _ => rfl
  | c :: p, rest => by simp [leadsWith, leadsWith_refl_append p rest]

theorem leadsWith_append_right :
    ∀ (pat t b : List Char), leadsWith pat t = true → leadsWith pat (t ++ b) = true := by
  intro pat
  induction pat with
  | nil => intro t b _; rfl
  | cons c p ih =>
    intro t b h
    cases t with
    | nil => exact absurd h (by simp [leadsWith])
    | cons d t' =>
      simp only [leadsWith, Bool.and_eq_true] at h
      simpa [leadsWith, h.1] using ih t' b h.2

theorem containsSeq_nil_pat : ∀ (t : List Char), containsSeq [] t = true
  | [] => rfl
  | _ :: rest => by simp [containsSeq, leadsWith]

theorem containsSeq_of_leadsWith (pat t : List Char) (h : leadsWith pat t = true) :
    containsSeq pat t = true := by
  cases t with
  | nil => simpa [containsSeq] using h
  | cons c rest => simp [containsSeq, h]

theorem containsSeq_append_left :
    ∀ (a pat t : List Char), containsSeq pat t = true → containsSeq pat (a ++ t) = true := by
  intro a
  induction a with
  | nil => intro pat t h; simpa using h
  | cons c a' ih =>
    intro pat t h
    simp only [List.cons_append, containsSeq, Bool.or_eq_true]
    right
    exact ih pat t h

theorem containsSeq_append_right :
    ∀ (pat a b : List Char), containsSeq pat a = true → containsSeq pat (a ++ b) = true := by
  intro pat a
  induction a with
  | nil =>
    intro b h
    have hp : pat = [] := by
      cases pat with
      | nil => rfl
      | cons c p => exact absurd h (by simp [containsSeq, leadsWith])
    subst hp
    simpa using containsSeq_nil_pat b
  | cons c a' ih =>
    intro b h
    simp only [containsSeq, Bool.or_eq_true] at h
    rcases h with h | h
    · simp only [List.cons_append, containsSeq, Bool.or_eq_true]
      left
      simpa using leadsWith_append_right pat (c :: a') b (by simpa using h)
    · simp only [List.cons_append, containsSeq, Bool.or_eq_true]
      right
      exact ih b h

theorem containsSeq_middle (pat a b : List Char) :
    containsSeq pat (a ++ (pat ++ b)) = true :=
  containsSeq_append_left a pat (pat ++ b)
    (containsSeq_of_leadsWith pat (pat ++ b) (leadsWith_refl_append pat b))

theorem containsSeq_of_eq (pat t a b : List Char) (h : t = a ++ (pat ++ b)) :
    containsSeq pat t = true := by
  rw [h]
  exact containsSeq_middle pat a b

theorem endsWith_of_eq (pat t a : List Char) (h : t = a ++ pat) :
    endsWith pat t = true := by
  rw [h]
  unfold endsWith
  rw [List.reverse_append]
  exact leadsWith_refl_append pat.reverse a.reverse

theorem containsSeq_joinWith (sep : List Char) (f : StudySession → List Char) :
    ∀ (l : List StudySession) (s : StudySession), s ∈ l →
      containsSeq (f s) (joinWith sep (l.map f)) = true := by
  intro l
  induction l with
  | nil => intro s hs; exact absurd hs (List.not_mem_nil s)
  | cons x rest ih =>
    intro s hs
    rcases List.mem_cons.mp hs with h | h
    · subst h
      cases rest with
      | nil =>
        simp only [List.map_cons, List.map_nil, joinWith]
        exact containsSeq_of_leadsWith _ _
          (by simpa using leadsWith_refl_append (f s) [])
      | cons y t =>
        simp only [List.map_cons, joinWith]
        rw [List.append_assoc]
        exact containsSeq_of_leadsWith _ _ (leadsWith_refl_append (f s) _)
    · cases rest with
      | nil => exact absurd h (List.not_mem_nil s)
      | cons y t =>
        simp only [List.map_cons, joinWith]
        rw [List.append_assoc]
        apply containsSeq_append_left
        apply containsSeq_append_left
        simpa using ih s h

theorem descAfterDescription_head (s : StudySession) :
    ∃ r, descAfterDescription s = descBase s ++ r := by
  unfold descAfterDescription
  cases hd : s.description with
  | none => exact ⟨[], by simp⟩
  | some d =>
    by_cases he : d = []
    · exact ⟨[], by simp [he]⟩
    · exact ⟨lit "\\n\\n" ++ escapeText d, by simp [he, List.append_assoc]⟩

theorem descAfterGoals_head (s : StudySession) :
    ∃ r, descAfterGoals s = descBase s ++ r := by
  obtain ⟨r, hr⟩ := descAfterDescription_head s
  unfold descAfterGoals
  by_cases hg : s.goals = []
  · exact ⟨r, by simp [hg, hr]⟩
  · exact ⟨r ++ (lit "\\n\\nGoals:\\n" ++
      joinWith (lit "\\n") (s.goals.map (fun g => lit "- " ++ escapeText g))),
      by simp [hg, hr, List.append_assoc]⟩

theorem eventDescription_head (s : StudySession) :
    ∃ r, eventDescription s = descBase s ++ r := by
  obtain ⟨r, hr⟩ := descAfterGoals_head s
  exact ⟨r ++ (lit "\\n\\nDifficulty: " ++ difficultyText s.difficulty),
    by simp [eventDescription, hr, List.append_assoc]⟩

theorem leadsWith_cancel :
    ∀ (a b t : List Char), leadsWith (a ++ b) (a ++ t) = leadsWith b t := by
  intro a
  induction a with
  | nil => intro b t; rfl
  | cons c a' ih => intro b t; simp [leadsWith, ih]

/-- The VALARM block: display alarm triggered 15 minutes before the event. -/
def alarmBlock : List Char :=
  lit "BEGIN:VALARM" ++ lit "\n" ++
  lit "TRIGGER:-PT15M" ++ lit "\n" ++
  lit "DESCRIPTION:Study session starting in 15 minutes" ++ lit "\n" ++
  lit "ACTION:DISPLAY" ++ lit "\n" ++
  lit "END:VALARM"

/-- The DTSTART/DTEND lines of a session: UTC stamps with
`DTEND = startTime + duration minutes`. -/
def dtLines (s : StudySession) : List Char :=
  lit "DTSTART:" ++ formatDate s.startTime ++ lit "\n" ++
  lit "DTEND:" ++ formatDate (s.startTime + (s.duration : Int) * 60000) ++ lit "\n"

/-- The SUMMARY line of a session: the escaped `subject: topic` text. -/
def summaryLine (s : StudySession) : List Char :=
  lit "SUMMARY:" ++ escapeText (s.subject ++ lit ": " ++ s.topic) ++ lit "\n"

/-- C9 (amended): the export is a single `BEGIN:VCALENDAR`/`END:VCALENDAR`
payload containing the newline-joined VEVENT blocks, one per session;
each block carries a 15-minute-before VALARM, UTC-stamped
DTSTART/DTEND with `DTEND = start + duration` minutes, and an escaped
SUMMARY — but the topic is interpolated into the DESCRIPTION value
unescaped (and the subject into CATEGORIES), so not every free-text
field is escaped. -/
theorem C9_ics_structure (now : Int) (sessions : List StudySession)
    (s : StudySession) (hs : s ∈ sessions) :
    leadsWith (lit "BEGIN:VCALENDAR") (generateICSContent now sessions) = true ∧
    endsWith (lit "END:VCALENDAR") (generateICSContent now sessions) = true ∧
    containsSeq (generateEvent now s) (generateICSContent now sessions) = true ∧
    leadsWith (lit "BEGIN:VEVENT") (generateEvent now s) = true ∧
    endsWith (lit "END:VEVENT") (generateEvent now s) = true ∧
    containsSeq alarmBlock (generateEvent now s) = true ∧
    containsSeq (dtLines s) (generateEvent now s) = true ∧
    containsSeq (summaryLine s) (generateEvent now s) = true ∧
    containsSeq (lit "DESCRIPTION:" ++ descBase s) (generateEvent now s) = true := by
  refine ⟨?_, ?_, ?_, ?_, ?_, ?_, ?_, ?_, ?_⟩
  · simp only [generateICSContent, List.append_assoc]
    exact leadsWith_refl_append _ _
  · apply endsWith_of_eq _ _
      (lit "BEGIN:VCALENDAR" ++ lit "\n" ++ lit "VERSION:2.0" ++ lit "\n" ++
        lit "PRODID:-//StudySmart//Study Scheduler//EN" ++ lit "\n" ++
        lit "CALSCALE:GREGORIAN" ++ lit "\n" ++ lit "METHOD:PUBLISH" ++ lit "\n" ++
        joinWith (lit "\n") (sessions.map (generateEvent now)) ++ lit "\n")
    simp [generateICSContent, List.append_assoc]
  · simp only [generateICSContent, List.append_assoc]
    iterate 10 apply containsSeq_append_left
    exact containsSeq_append_right _ _ _
      (containsSeq_joinWith (lit "\n") (generateEvent now) sessions s hs)
  · simp only [generateEvent, List.append_assoc]
    exact leadsWith_refl_append _ _
  · apply endsWith_of_eq _ _
      (lit "BEGIN:VEVENT" ++ lit "\n" ++
        lit "UID:" ++ s.id ++ lit "@studysmart.app" ++ lit "\n" ++
        lit "DTSTAMP:" ++ formatDate now ++ lit "\n" ++
        lit "DTSTART:" ++ formatDate s.startTime ++ lit "\n" ++
        lit "DTEND:" ++ formatDate (s.startTime + (s.duration : Int) * 60000) ++ lit "\n" ++
        lit "SUMMARY:" ++ escapeText (s.subject ++ lit ": " ++ s.topic) ++ lit "\n" ++
        lit "DESCRIPTION:" ++ eventDescription s ++ lit "\n" ++
        lit "STATUS:" ++ (if s.completed then lit "CONFIRMED" else lit "TENTATIVE") ++ lit "\n" ++
        lit "CATEGORIES:Study," ++ s.subject ++ lit "," ++ difficultyText s.difficulty ++ lit "\n" ++
        lit "BEGIN:VALARM" ++ lit "\n" ++
        lit "TRIGGER:-PT15M" ++ lit "\n" ++
        lit "DESCRIPTION:Study session starting in 15 minutes" ++ lit "\n" ++
        lit "ACTION:DISPLAY" ++ lit "\n" ++
        lit "END:VALARM" ++ lit "\n")
    simp [generateEvent, List.append_assoc]
  · simp only [generateEvent, List.append_assoc]
    iterate 29 apply containsSeq_append_left
    apply containsSeq_of_leadsWith
    simp only [alarmBlock, List.append_assoc]
    simp only [leadsWith_cancel]
    exact leadsWith_refl_append _ _
  · simp only [generateEvent, List.append_assoc]
    iterate 9 apply containsSeq_append_left
    apply containsSeq_of_leadsWith
    simp only [dtLines, List.append_assoc]
    simp only [leadsWith_cancel]
    exact leadsWith_refl_append _ _
  · simp only [generateEvent, List.append_assoc]
    iterate 15 apply containsSeq_append_left
    apply containsSeq_of_leadsWith
    simp only [summaryLine, List.append_assoc]
    simp only [leadsWith_cancel]
    exact leadsWith_refl_append _ _
  · obtain ⟨r, hr⟩ := eventDescription_head s
    simp only [generateEvent, hr, descBase, List.append_assoc]
    iterate 18 apply containsSeq_append_left
    apply containsSeq_of_leadsWith
    simp only [leadsWith_cancel]
    exact leadsWith_refl_append _ _

/-- A session whose topic contains a comma. -/
def exCommaTopic : StudySession :=
  { id := lit "42", subject := lit "Math", topic := lit "a,b", duration := 30
    startTime := 0, completed := false, difficulty := .easy }

/-- C9 (counterexample): for a session with topic `a,b`, the emitted
DESCRIPTION field embeds the topic verbatim — the value
`Study session: a,b` contains an unescaped comma and fails the
escape-cleanliness check, while its properly escaped form would pass; so
not every free-text field of the export is escaped. -/
theorem C9_counterexample_unescaped_topic :
    containsSeq (lit "DESCRIPTION:Study session: a,b")
      (generateEvent 0 exCommaTopic) = true ∧
    textEscapedOk (lit "Study session: a,b") = false ∧
    textEscapedOk (escapeText (lit "Study session: a,b")) = true := by decide

theorem C9_ics_structure_witness :
    leadsWith (lit "BEGIN:VCALENDAR") (generateICSContent 0 [exCommaTopic]) = true ∧
    endsWith (lit "END:VCALENDAR") (generateICSContent 0 [exCommaTopic]) = true ∧
    containsSeq (generateEvent 0 exCommaTopic) (generateICSContent 0 [exCommaTopic]) = true ∧
    leadsWith (lit "BEGIN:VEVENT") (generateEvent 0 exCommaTopic) = true ∧
    endsWith (lit "END:VEVENT") (generateEvent 0 exCommaTopic) = true ∧
    containsSeq alarmBlock (generateEvent 0 exCommaTopic) = true ∧
    containsSeq (dtLines exCommaTopic) (generateEvent 0 exCommaTopic) = true ∧
    containsSeq (summaryLine exCommaTopic) (generateEvent 0 exCommaTopic) = true ∧
    containsSeq (lit "DESCRIPTION:" ++ descBase exCommaTopic)
      (generateEvent 0 exCommaTopic) = true :=
  C9_ics_structure 0 [exCommaTopic] exCommaTopic (by simp)
